import Mathlib

/-!
Shallow embedding of the OSINT analysis pipeline of `arivaigosint.py`
(class `AdvancedInstagramOSINT`).  The repository also ships `a.py`, an
earlier draft of the same script; where the two drafts differ the
embedding follows `arivaigosint.py`, the file whose behaviour the
specification describes (explicit no-suspicious-patterns marker, neutral
consistency value, retry on throttling).

Modelling conventions:
* Python numeric profile fields (follower, followee, media counts) are `ℕ`;
  float arithmetic on scores is idealised as exact `ℚ` arithmetic.
* Optional or possibly-None string attributes are `String`, with `""`
  playing the role of a Python falsy value (None or the empty string).
* A try/except around a network fetch becomes an `Option`/`Exc` input to
  the function containing it; the wall-clock sleeps between paginated
  calls are not modelled.
* The retry loop of `_fetch_followers` receives a fuel parameter bounding
  the number of attempts the model may run; `none` means the call had not
  returned within that budget.
-/

/-- Raw Instagram profile object as consumed from instaloader
(`Profile.from_username`): exactly the attribute set read by
`arivaigosint.py`. -/
structure Profile where
  username : String
  userid : ℕ
  full_name : String
  biography : String
  followers : ℕ
  followees : ℕ
  mediacount : ℕ
  is_private : Bool
  is_verified : Bool
  is_business_account : Bool
  business_category_name : String
  external_url : String
  profile_pic_url : String
deriving Repr, DecidableEq

/-- The `basic_info` dictionary built by `_analyze_target_profile`
(arivaigosint.py lines 74-88); its optional string entries are defaulted
to "N/A" through the Python `or`. -/
structure BasicInfo where
  username : String
  user_id : ℕ
  full_name : String
  biography : String
  followers : ℕ
  followees : ℕ
  posts_count : ℕ
  is_private : Bool
  is_verified : Bool
  is_business_account : Bool
  business_category : String
  external_url : String
  profile_pic_url : String
deriving Repr, DecidableEq

/-- Python `s or "N/A"` on a string attribute. -/
def orNA (s : String) : String := if s = "" then "N/A" else s

/-- Construction of the `basic_info` dictionary from the raw profile. -/
def mkBasicInfo (p : Profile) : BasicInfo where
  username := p.username
  user_id := p.userid
  full_name := orNA p.full_name
  biography := orNA p.biography
  followers := p.followers
  followees := p.followees
  posts_count := p.mediacount
  is_private := p.is_private
  is_verified := p.is_verified
  is_business_account := p.is_business_account
  business_category := orNA p.business_category_name
  external_url := orNA p.external_url
  profile_pic_url := orNA p.profile_pic_url

/-- Seven (in general, `n`) consecutive decimal digits at the head of the
text. -/
def startsWithDigits : ℕ → List Char → Bool
  | 0, _ => true
  | _ + 1, [] => false
  | n + 1, c :: cs => c.isDigit && startsWithDigits n cs

/-- Embedding of the phone search `re.search` with the source pattern
(an optional plus sign, an optional nonzero digit, then 7 to 14 digits)
performed on biographies: since both optional prefixes may match the
empty string, a match exists exactly when the text contains at least
seven consecutive digits, which is what this scan decides. -/
def hasPhonePattern : List Char → Bool
  | [] => false
  | c :: cs => startsWithDigits 7 (c :: cs) || hasPhonePattern cs

/-- Local-part character class of the source email pattern. -/
def isEmailLocalChar (c : Char) : Bool :=
  c.isAlpha || c.isDigit || c == '.' || c == '_' || c == '%' || c == '+' || c == '-'

/-- Domain character class of the source email pattern. -/
def isEmailDomainChar (c : Char) : Bool :=
  c.isAlpha || c.isDigit || c == '.' || c == '-'

/-- Character class `[A-Z|a-z]` of the source email pattern; the literal
bar is part of the class. -/
def isEmailTldChar (c : Char) : Bool :=
  c.isAlpha || c == '|'

/-- Two or more top-level-domain characters after the final dot. -/
def emailAfterDot : List Char → Bool
  | t1 :: t2 :: _ => isEmailTldChar t1 && isEmailTldChar t2
  | _ => false

/-- Rest of the domain after its first character: either the final dot
followed by the top-level domain, or one more domain character and a
recursive continuation. -/
def emailDomainRest : List Char → Bool
  | [] => false
  | c :: cs => (c == '.' && emailAfterDot cs) || (isEmailDomainChar c && emailDomainRest cs)

/-- Domain, dot and top-level domain after the at-sign. -/
def emailAfterAt : List Char → Bool
  | [] => false
  | c :: cs => isEmailDomainChar c && emailDomainRest cs

/-- Embedding of `re.search` with the source email pattern (word boundary,
one or more local-part characters, an at-sign, one or more domain
characters, a dot, two or more letters, word boundary): an at-sign
preceded by a local-part character and followed by a domain, a dot and at
least two top-level-domain characters.  The word-boundary anchors are not
modelled; no theorem below depends on a boundary case, and a text without
an at-sign never matches under either reading. -/
def hasEmailPattern : List Char → Bool
  | [] => false
  | [_] => false
  | c1 :: c2 :: cs =>
      (isEmailLocalChar c1 && c2 == '@' && emailAfterAt cs) || hasEmailPattern (c2 :: cs)

/-- Result dictionary of `_calculate_advanced_metrics`. -/
structure Metrics where
  engagement_potential : ℚ
  influence_score : ℚ
  authenticity_score : ℚ
  activity_pattern : String
  profile_completion : ℚ
deriving Repr, DecidableEq

/-- Embedding of `_calculate_advanced_metrics` (arivaigosint.py lines
100-134).  Every computed field, profile completion included, sits inside
the `followers > 0` guard; otherwise the zero-initialised dictionary is
returned unchanged. -/
def calculate_advanced_metrics (p : Profile) : Metrics :=
  if 0 < p.followers then
    { engagement_potential := min 100 ((p.mediacount : ℚ) / (p.followers : ℚ) * 1000)
      influence_score :=
        if 0 < p.followees then min 100 ((p.followers : ℚ) / (p.followees : ℚ) * 10) else 100
      authenticity_score :=
        min 100 (50 + (if p.is_verified then 20 else 0)
          + (if p.biography ≠ "" ∧ 20 < p.biography.length then 10 else 0)
          + (if p.external_url ≠ "" then 10 else 0)
          + (if 1000 < p.followers then 10 else 0))
      activity_pattern := "unknown"
      profile_completion :=
        (if p.full_name ≠ "" then 25 else 0) + (if p.biography ≠ "" then 25 else 0)
          + (if p.profile_pic_url ≠ "" then 25 else 0) + (if 0 < p.mediacount then 25 else 0) }
  else
    { engagement_potential := 0, influence_score := 0, authenticity_score := 0,
      activity_pattern := "unknown", profile_completion := 0 }

/-- Exposure-risk labels of `_security_analysis`; the Turkish text of the
source is transliterated to ASCII. -/
def riskPublic : String := "Profil herkese acik"

/-- Label appended when an external link is present. -/
def riskExternal : String := "Dis baglanti mevcut"

/-- Label appended for a biography longer than 100 characters. -/
def riskDetailedBio : String := "Detayli biyografi"

/-- Label appended when an email-shaped substring is found. -/
def riskEmail : String := "E-mail adresi ifsa edilmis"

/-- Label appended when a phone-shaped substring is found. -/
def riskPhone : String := "Telefon numarasi ifsa edilmis"

/-- Result dictionary of `_security_analysis`. -/
structure SecurityData where
  privacy_score : ℤ
  exposure_risks : List String
  recommendations : List String
  threat_indicators : List String
deriving Repr, DecidableEq

/-- Privacy score before the final clamp: 100 minus the five deductions of
`_security_analysis` (arivaigosint.py lines 526-543).  The dictionary
lookups hit existing keys of `basic_info`, so each `get` returns the
stored value. -/
def privacyRaw (bi : BasicInfo) : ℤ :=
  100 - (if !bi.is_private then 30 else 0)
      - (if bi.external_url ≠ "N/A" then 10 else 0)
      - (if bi.biography ≠ "" ∧ 100 < bi.biography.length then 5 else 0)
      - (if hasEmailPattern bi.biography.data then 20 else 0)
      - (if hasPhonePattern bi.biography.data then 25 else 0)

/-- Exposure-risk list accumulated alongside the deductions. -/
def securityRisks (bi : BasicInfo) : List String :=
  (if !bi.is_private then [riskPublic] else [])
    ++ (if bi.external_url ≠ "N/A" then [riskExternal] else [])
    ++ (if bi.biography ≠ "" ∧ 100 < bi.biography.length then [riskDetailedBio] else [])
    ++ (if hasEmailPattern bi.biography.data then [riskEmail] else [])
    ++ (if hasPhonePattern bi.biography.data then [riskPhone] else [])

/-- Fixed recommendation set issued below a privacy score of 50. -/
def securityRecommendations : List String :=
  ["Profili gizli yap", "Biyografiden kisisel bilgileri kaldir",
   "Iki faktorlu kimlik dogrulamayi aktif et"]

/-- Embedding of `_security_analysis` (arivaigosint.py lines 519-551),
taking the `basic_info` dictionary of the profile data it reads. -/
def security_analysis (bi : BasicInfo) : SecurityData :=
  let score := max 0 (privacyRaw bi)
  { privacy_score := score
    exposure_risks := securityRisks bi
    recommendations := if score < 50 then securityRecommendations else []
    threat_indicators := [] }

/-- Label of the high-followers, low-content rule (bot suspicion). -/
def lblHighFollowersLowContent : String := "Yuksek takipci, dusuk icerik (bot suphesi)"

/-- Label of the abnormal follower-to-followee ratio rule. -/
def lblAbnormalRatio : String := "Anormal takipci/takip orani"

/-- Label of the excessive-following rule (spam suspicion). -/
def lblExcessiveFollowing : String := "Cok fazla takip, az takipci (spam suphesi)"

/-- Label of the low-profile-completion rule (bot suspicion). -/
def lblLowCompletion : String := "Dusuk profil tamamlama orani (bot suphesi)"

/-- Explicit marker emitted when no detection rule fires. -/
def lblNoSuspicious : String := "no_suspicious_patterns"

/-- The `suspicious` list built by `_detect_suspicious_patterns` before
the final `or` fallback (arivaigosint.py lines 626-638).  The
follower-sample arguments of the source function are unused by its body
and omitted. -/
def suspicious_list (p : Profile) : List String :=
  (if 10000 < p.followers ∧ p.mediacount < 10 then [lblHighFollowersLowContent] else [])
    ++ (if 0 < p.followees then
          (if 100 < (p.followers : ℚ) / (p.followees : ℚ) then [lblAbnormalRatio]
           else if (p.followers : ℚ) / (p.followees : ℚ) < 1 / 10 then [lblExcessiveFollowing]
           else [])
        else [])
    ++ (if (calculate_advanced_metrics p).profile_completion < 50 then [lblLowCompletion] else [])

/-- Embedding of `_detect_suspicious_patterns`: the accumulated label
list, or the explicit marker when that list is empty
(`return suspicious or ["no_suspicious_patterns"]`). -/
def detect_suspicious_patterns (p : Profile) : List String :=
  if suspicious_list p = [] then [lblNoSuspicious] else suspicious_list p

/-- Inter-post intervals in days: the source comprehension subtracting
`dates[i+1]` from `dates[i]` for every index below `len(dates) - 1`, with
post timestamps modelled as integer day numbers. -/
def postIntervals (dates : List ℤ) : List ℤ :=
  (List.range (dates.length - 1)).map fun i => dates.getD i 0 - dates.getD (i + 1) 0

/-- The `avg_interval` of `_analyze_posting_patterns`: arithmetic mean of
the interval list. -/
def meanInterval (dates : List ℤ) : ℚ :=
  ((postIntervals dates).map fun x => (x : ℚ)).sum / ((postIntervals dates).length : ℚ)

/-- The `variance` of `_analyze_posting_patterns`: mean squared deviation
of the interval list from `avg_interval`. -/
def varianceInterval (dates : List ℤ) : ℚ :=
  ((postIntervals dates).map fun x => ((x : ℚ) - meanInterval dates) ^ 2).sum
    / ((postIntervals dates).length : ℚ)

/-- Consistency score of `_analyze_posting_patterns` (arivaigosint.py
lines 168-190): 0 with fewer than two posts, otherwise
max(0, 100 - (variance/mean)*10) when the mean interval is positive and
the neutral 50 when it is not.  The hour and weekday histograms of the
same function do not feed the score and are not modelled. -/
def posting_consistency_score (dates : List ℤ) : ℚ :=
  if 1 < dates.length then
    if 0 < meanInterval dates then
      max 0 (100 - varianceInterval dates / meanInterval dates * 10)
    else 50
  else 0

/-- One pass of the follower enumeration inside `_fetch_followers`: the
generator either yields its items without raising, or raises the
throttling exception after yielding the listed items. -/
inductive FollowerAttempt where
  | ok (items : List String)
  | rateLimited (items : List String)

/-- Embedding of `_fetch_followers` (arivaigosint.py lines 266-278; the
followee variant on lines 280-292 is identical): collect up to `limit`
usernames; on the throttling exception, wait 60 time units (the wait is
not modelled) and recurse with the limit reduced by the number of items
already collected, discarding those items.  The exception reaches the
handler exactly when the enumeration raises before the loop breaks, that
is after yielding at most `limit` items.  The second `ℕ` is fuel bounding
the number of attempts the model may run (`none`: the call had not
returned within that budget) and the third is the index of the current
attempt. -/
def fetch_followers (attempts : ℕ → FollowerAttempt) : ℕ → ℕ → ℕ → Option (List String)
  | _, 0, _ => none
  | limit, fuel + 1, n =>
    match attempts n with
    | .ok items => some (items.take limit)
    | .rateLimited items =>
      if items.length ≤ limit then fetch_followers attempts (limit - items.length) fuel (n + 1)
      else some (items.take limit)

/-- Outcome of a fetch wrapped in a try block or gathered with
`return_exceptions=True`: a value or a caught exception message. -/
inductive Exc (α : Type) where
  | ok (val : α)
  | err (msg : String)
deriving Repr

/-- The `connections` sub-dictionary of the network analysis. -/
structure ConnectionsData where
  followers_sample : List String
  followees_sample : List String
  total_followers : ℕ
  total_followees : ℕ
deriving Repr, DecidableEq

/-- Result dictionary of `_analyze_network`; `none` models a sub-entry
still in its initial empty-dictionary state.  The `influence_network`
entry is initialised empty and never written, and is omitted. -/
structure NetworkData where
  connections : Option ConnectionsData
  mutual_connections : List String
  suspicious_patterns : List String
  second_degree_connections : Option (List (String × List String))
  common_followed_accounts : Option (List (String × ℕ))
  status : Option String
  error : Option String
deriving Repr, DecidableEq

/-- The network dictionary as initialised at the top of
`_analyze_network`. -/
def emptyNetworkData : NetworkData :=
  { connections := none, mutual_connections := [], suspicious_patterns := [],
    second_degree_connections := none, common_followed_accounts := none,
    status := none, error := none }

/-- Inputs of one run of `_analyze_network`: the outcome of the inner
profile fetch (the only operation of the try block that can raise — every
other helper catches internally or is pure), the two gathered sample
fetches (an exception there degrades to an empty sample through
`return_exceptions=True`), and the values returned by the second-degree
and common-followed helpers, which always return normally. -/
structure NetworkInputs where
  profileFetch : Exc Profile
  followersFetch : Exc (List String)
  followeesFetch : Exc (List String)
  secondDegree : List (String × List String)
  commonFollowed : List (String × ℕ)

/-- Deterministic representative of the Python set intersection
`set(followers) & set(followees)` turned into a list. -/
def mutualConnections (followers followees : List String) : List String :=
  (followers.filter fun f => followees.contains f).dedup

/-- Embedding of `_analyze_network` (arivaigosint.py lines 223-264). -/
def analyze_network (inp : NetworkInputs) (depth : ℕ) : NetworkData :=
  match inp.profileFetch with
  | .err e => { emptyNetworkData with error := some e }
  | .ok profile =>
    if !profile.is_private then
      let followers := match inp.followersFetch with | .ok l => l | .err _ => []
      let followees := match inp.followeesFetch with | .ok l => l | .err _ => []
      { connections := some ⟨followers, followees, profile.followers, profile.followees⟩
        mutual_connections := mutualConnections followers followees
        suspicious_patterns := detect_suspicious_patterns profile
        second_degree_connections := if 1 < depth then some inp.secondDegree else none
        common_followed_accounts := some inp.commonFollowed
        status := none
        error := none }
    else { emptyNetworkData with status := some "private_account" }

/-- The profile-data dictionary built by `_analyze_target_profile`.  Its
content_analysis, metadata_analysis and username_history entries are
carried unchanged by the assembler and read nowhere below, so they are
not modelled; the top level of this dictionary has no is_private key —
that flag lives inside basic_info. -/
structure ProfileData where
  basic_info : BasicInfo
  advanced_metrics : Metrics
deriving Repr, DecidableEq

/-- Profile-data construction from a successfully fetched profile. -/
def mkProfileData (p : Profile) : ProfileData :=
  { basic_info := mkBasicInfo p, advanced_metrics := calculate_advanced_metrics p }

/-- Embedding of `_analyze_target_profile`: the surrounding try turns a
failing primary fetch into None. -/
def analyze_target_profile (fetch : Option Profile) : Option ProfileData :=
  fetch.map mkProfileData

/-- Lookup `profile_data.get("is_private", True)` performed by
`comprehensive_analysis` (arivaigosint.py line 53): the profile-data
dictionary has keys basic_info, advanced_metrics, content_analysis,
metadata_analysis and username_history only, so the lookup always misses
and yields the default True. -/
def profileDataGetIsPrivate (_ : ProfileData) : Bool := true

/-- Dictionary returned by the digital-footprint branch; its construction
is network input/output outside this embedding and the assembler stores
it unchanged, so it is an opaque value supplied as an input. -/
structure FootprintData where
  tag : ℕ
deriving Repr, DecidableEq

/-- Dictionary returned by the timeline branch; opaque, as for
`FootprintData`. -/
structure TimelineData where
  tag : ℕ
deriving Repr, DecidableEq

/-- Dictionary returned by the behavioral branch; opaque, as for
`FootprintData`. -/
structure BehavioralData where
  tag : ℕ
deriving Repr, DecidableEq

/-- The analysis-data dictionary assembled by `comprehensive_analysis`
(arivaigosint.py lines 39-48): every section starts as the empty
dictionary, modelled as `none`.  The timestamp entry is wall-clock time
and is not modelled. -/
structure AnalysisData where
  target : String
  profile_analysis : Option ProfileData
  network_analysis : Option NetworkData
  digital_footprint : Option FootprintData
  security_analysis : Option SecurityData
  timeline_analysis : Option TimelineData
  behavioral_analysis : Option BehavioralData
deriving Repr, DecidableEq

/-- Embedding of `comprehensive_analysis` (arivaigosint.py lines 37-66).
The analysis returns None exactly when the primary profile fetch fails;
otherwise the secondary branches run only when
`profile_data.get("is_private", True)` is falsy.  Report generation is
file output and is not modelled. -/
def comprehensive_analysis (target : String) (depth : ℕ) (primaryFetch : Option Profile)
    (ninp : NetworkInputs) (footprint : FootprintData) (timeline : TimelineData)
    (behavioral : BehavioralData) : Option AnalysisData :=
  let base : AnalysisData :=
    { target := target, profile_analysis := none, network_analysis := none,
      digital_footprint := none, security_analysis := none, timeline_analysis := none,
      behavioral_analysis := none }
  match analyze_target_profile primaryFetch with
  | none => none
  | some pd =>
    let withProfile := { base with profile_analysis := some pd }
    if !profileDataGetIsPrivate pd then
      some { withProfile with
        network_analysis := some (analyze_network ninp depth)
        digital_footprint := some footprint
        security_analysis := some (security_analysis pd.basic_info)
        timeline_analysis := some timeline
        behavioral_analysis := some behavioral }
    else some withProfile

/-! ### Sample data used by witnesses and counterexamples -/

/-- Sample public profile: complete, small, nothing suspicious. -/
def samplePublicProfile : Profile :=
  { username := "target", userid := 1, full_name := "Full Name", biography := "hello bio",
    followers := 5, followees := 5, mediacount := 5, is_private := false, is_verified := false,
    is_business_account := false, business_category_name := "", external_url := "",
    profile_pic_url := "pic" }

/-- The sample profile flagged private. -/
def samplePrivateProfile : Profile := { samplePublicProfile with is_private := true }

/-- The follower, post and followee counts of the suspicious-pattern
example: 20000 followers, 5 posts, 50 followees. -/
def botProfile : Profile :=
  { samplePublicProfile with followers := 20000, followees := 50, mediacount := 5 }

/-- Profile with neither followers nor followees. -/
def zeroProfile : Profile := { samplePublicProfile with followers := 0, followees := 0 }

/-- Profile with followers but no followees. -/
def noFolloweesProfile : Profile := { samplePublicProfile with followees := 0 }

/-- Profile with no followers but every authenticity ingredient present. -/
def zeroFollowersRich : Profile :=
  { samplePublicProfile with
    followers := 0
    followees := 7
    mediacount := 9
    is_verified := true
    external_url := "https://example.com"
    biography := "a long biography text with more than twenty characters" }

/-- Network-branch inputs in which every fetch succeeds with no data. -/
def sampleNetworkInputs : NetworkInputs := ⟨.ok samplePublicProfile, .ok [], .ok [], [], []⟩

/-- Biography of exactly 30 characters with no digit and no at-sign. -/
def bio30 : String := "abcdefghijklmnopqrstuvwxyzabcd"

/-- Basic-info dictionary of the privacy-score example: public account, no
external link, 30-character biography without email- or phone-shaped
substrings. -/
def c5BasicInfo : BasicInfo :=
  { username := "target", user_id := 1, full_name := "Full Name", biography := bio30,
    followers := 5, followees := 5, posts_count := 5, is_private := false, is_verified := false,
    is_business_account := false, business_category := "N/A", external_url := "N/A",
    profile_pic_url := "N/A" }

/-! ### Specification-side formulations and helper lemmas -/

/-- Intervals as the specification words them: the difference of each
consecutive pair of dates, posts ordered newest first. -/
def pairwiseIntervals : List ℤ → List ℤ
  | a :: b :: rest => (a - b) :: pairwiseIntervals (b :: rest)
  | _ => []

/-- Mean of the pairwise interval list, as the specification states it. -/
def specMean (dates : List ℤ) : ℚ :=
  ((pairwiseIntervals dates).map fun x => (x : ℚ)).sum / ((pairwiseIntervals dates).length : ℚ)

/-- Variance of the pairwise interval list, as the specification states
it. -/
def specVariance (dates : List ℤ) : ℚ :=
  ((pairwiseIntervals dates).map fun x => ((x : ℚ) - specMean dates) ^ 2).sum
    / ((pairwiseIntervals dates).length : ℚ)

lemma postIntervals_cons (a b : ℤ) (t : List ℤ) :
    postIntervals (a :: b :: t) = (a - b) :: postIntervals (b :: t) := by
  unfold postIntervals
  simp only [List.length_cons, Nat.add_sub_cancel, List.range_succ_eq_map, List.map_cons,
    List.map_map]
  rfl

lemma postIntervals_eq : ∀ dates : List ℤ, postIntervals dates = pairwiseIntervals dates
  | [] => rfl
  | [_] => rfl
  | a :: b :: t => by
      rw [postIntervals_cons, postIntervals_eq (b :: t)]
      rfl

lemma meanInterval_eq (dates : List ℤ) : meanInterval dates = specMean dates := by
  unfold meanInterval specMean
  rw [postIntervals_eq]

lemma varianceInterval_eq (dates : List ℤ) : varianceInterval dates = specVariance dates := by
  unfold varianceInterval specVariance
  simp only [postIntervals_eq, meanInterval_eq]

lemma varianceInterval_nonneg (dates : List ℤ) : 0 ≤ varianceInterval dates := by
  unfold varianceInterval
  apply div_nonneg
  · apply List.sum_nonneg
    intro y hy
    obtain ⟨x, -, rfl⟩ := List.mem_map.mp hy
    positivity
  · positivity

lemma posting_consistency_bounds (dates : List ℤ) :
    0 ≤ posting_consistency_score dates ∧ posting_consistency_score dates ≤ 100 := by
  unfold posting_consistency_score
  split_ifs with h1 h2
  · refine ⟨le_max_left _ _, max_le (by norm_num) ?_⟩
    have hv : 0 ≤ varianceInterval dates / meanInterval dates * 10 :=
      mul_nonneg (div_nonneg (varianceInterval_nonneg dates) h2.le) (by norm_num)
    linarith
  · norm_num
  · norm_num

lemma engagement_bounds (p : Profile) :
    0 ≤ (calculate_advanced_metrics p).engagement_potential ∧
      (calculate_advanced_metrics p).engagement_potential ≤ 100 := by
  by_cases h : 0 < p.followers
  · simp only [calculate_advanced_metrics, if_pos h]
    exact ⟨le_min (by norm_num) (by positivity), min_le_left _ _⟩
  · simp only [calculate_advanced_metrics, if_neg h]
    norm_num

lemma influence_bounds (p : Profile) :
    0 ≤ (calculate_advanced_metrics p).influence_score ∧
      (calculate_advanced_metrics p).influence_score ≤ 100 := by
  by_cases h : 0 < p.followers
  · simp only [calculate_advanced_metrics, if_pos h]
    split_ifs
    · exact ⟨le_min (by norm_num) (by positivity), min_le_left _ _⟩
    · norm_num
  · simp only [calculate_advanced_metrics, if_neg h]
    norm_num

lemma authenticity_bounds (p : Profile) :
    0 ≤ (calculate_advanced_metrics p).authenticity_score ∧
      (calculate_advanced_metrics p).authenticity_score ≤ 100 := by
  by_cases h : 0 < p.followers
  · simp only [calculate_advanced_metrics, if_pos h]
    constructor
    · apply le_min (by norm_num)
      split_ifs <;> norm_num
    · exact min_le_left _ _
  · simp only [calculate_advanced_metrics, if_neg h]
    norm_num

lemma completion_bounds (p : Profile) :
    0 ≤ (calculate_advanced_metrics p).profile_completion ∧
      (calculate_advanced_metrics p).profile_completion ≤ 100 := by
  by_cases h : 0 < p.followers
  · simp only [calculate_advanced_metrics, if_pos h]
    split_ifs <;> norm_num
  · simp only [calculate_advanced_metrics, if_neg h]
    norm_num

lemma privacyRaw_bounds (bi : BasicInfo) : 10 ≤ privacyRaw bi ∧ privacyRaw bi ≤ 100 := by
  unfold privacyRaw
  split_ifs <;> norm_num

lemma privacy_bounds (bi : BasicInfo) :
    0 ≤ (security_analysis bi).privacy_score ∧ (security_analysis bi).privacy_score ≤ 100 := by
  have h := privacyRaw_bounds bi
  simp only [security_analysis]
  exact ⟨le_max_left _ _, max_le (by norm_num) h.2⟩

/-! ### Claim theorems -/

/-- C1: for every analysis run whose primary profile fetch succeeds and
reports the account as private, the assembled report keeps the network,
digital-footprint, security, timeline and behavioral sections in their
empty initial state while the profile section holds the fetched profile
data. -/
theorem private_account_report_sections_empty (target : String) (depth : ℕ) (p : Profile)
    (ninp : NetworkInputs) (f : FootprintData) (t : TimelineData) (b : BehavioralData)
    (_hpriv : p.is_private = true) :
    comprehensive_analysis target depth (some p) ninp f t b =
      some { target := target
             profile_analysis := some (mkProfileData p)
             network_analysis := none
             digital_footprint := none
             security_analysis := none
             timeline_analysis := none
             behavioral_analysis := none } := by
  simp [comprehensive_analysis, analyze_target_profile, profileDataGetIsPrivate]

/-- Witness for C1 at a concrete private profile. -/
theorem private_account_report_sections_empty_witness :
    comprehensive_analysis "target" 2 (some samplePrivateProfile) sampleNetworkInputs
        ⟨0⟩ ⟨0⟩ ⟨0⟩ =
      some { target := "target"
             profile_analysis := some (mkProfileData samplePrivateProfile)
             network_analysis := none
             digital_footprint := none
             security_analysis := none
             timeline_analysis := none
             behavioral_analysis := none } :=
  private_account_report_sections_empty "target" 2 samplePrivateProfile sampleNetworkInputs
    ⟨0⟩ ⟨0⟩ ⟨0⟩ rfl

/-- C2: every computed score — engagement potential, influence score,
authenticity score, profile completion, privacy score and posting
consistency score — lies in the closed interval from 0 to 100, for every
profile (counts are naturally nonnegative), every basic-info dictionary
and every post-date list. -/
theorem all_scores_within_bounds (p : Profile) (bi : BasicInfo) (dates : List ℤ) :
    (0 ≤ (calculate_advanced_metrics p).engagement_potential ∧
        (calculate_advanced_metrics p).engagement_potential ≤ 100) ∧
    (0 ≤ (calculate_advanced_metrics p).influence_score ∧
        (calculate_advanced_metrics p).influence_score ≤ 100) ∧
    (0 ≤ (calculate_advanced_metrics p).authenticity_score ∧
        (calculate_advanced_metrics p).authenticity_score ≤ 100) ∧
    (0 ≤ (calculate_advanced_metrics p).profile_completion ∧
        (calculate_advanced_metrics p).profile_completion ≤ 100) ∧
    (0 ≤ (security_analysis bi).privacy_score ∧ (security_analysis bi).privacy_score ≤ 100) ∧
    (0 ≤ posting_consistency_score dates ∧ posting_consistency_score dates ≤ 100) :=
  ⟨engagement_bounds p, influence_bounds p, authenticity_bounds p, completion_bounds p,
   privacy_bounds bi, posting_consistency_bounds dates⟩

/-- C3 counterexample: at followee count 0 the claim predicts influence
score exactly 100, but with follower count 0 the code leaves the
zero-initialised influence score, so the reported value is 0. -/
theorem influence_zero_followers_counterexample :
    zeroProfile.followees = 0 ∧ (calculate_advanced_metrics zeroProfile).influence_score ≠ 100 :=
  ⟨rfl, by decide⟩

/-- C3 amended: for every profile with follower count greater than 0 the
influence score equals min(100, (followers/followees)*10) when the
followee count is positive and exactly 100 when it is zero; with zero
followers the whole metric block is skipped and the influence score
stays 0. -/
theorem influence_score_formula (p : Profile) (hf : 0 < p.followers) :
    (0 < p.followees →
        (calculate_advanced_metrics p).influence_score
          = min 100 ((p.followers : ℚ) / (p.followees : ℚ) * 10)) ∧
    (p.followees = 0 → (calculate_advanced_metrics p).influence_score = 100) := by
  simp only [calculate_advanced_metrics, if_pos hf]
  constructor
  · intro h
    rw [if_pos h]
  · intro h
    rw [h]
    norm_num

/-- Witness for the amended C3 at concrete profiles with followers. -/
theorem influence_score_formula_witness :
    (calculate_advanced_metrics samplePublicProfile).influence_score
        = min 100
            ((samplePublicProfile.followers : ℚ) / (samplePublicProfile.followees : ℚ) * 10) ∧
    (calculate_advanced_metrics noFolloweesProfile).influence_score = 100 :=
  ⟨(influence_score_formula samplePublicProfile (by decide)).1 (by decide),
   (influence_score_formula noFolloweesProfile (by decide)).2 rfl⟩

/-- Attempt stream in which every attempt is rate limited before
collecting anything. -/
def allRateLimited : ℕ → FollowerAttempt := fun _ => .rateLimited []

/-- C4 counterexample: the claim promises termination after exactly 3
attempts with a Failed result recording 3 attempts, but with every
attempt rate limited the fetch has still not returned within a budget of
4 attempts. -/
theorem rate_limited_fetch_counterexample :
    fetch_followers allRateLimited 50 4 0 = none := rfl

/-- C4 amended: the fetch has no attempt bound and no failure result:
each rate-limited attempt triggers an unconditional retry with the limit
reduced by the number of items collected, so when every attempt is rate
limited having collected nothing the call retries indefinitely — for
every attempt budget it is still unfinished. -/
theorem rate_limited_fetch_unbounded_retry (limit fuel n : ℕ) :
    fetch_followers allRateLimited limit fuel n = none := by
  induction fuel generalizing limit n with
  | zero => rfl
  | succ k ih => simpa [fetch_followers, allRateLimited] using ih limit (n + 1)

/-- C5 counterexample: a public account with no external link and a
30-character biography without email- or phone-shaped substrings gets
privacy score 70, not the 65 the claim states; the 5-point biography
deduction applies only beyond 100 characters. -/
theorem privacy_example_counterexample :
    c5BasicInfo.is_private = false ∧ c5BasicInfo.external_url = "N/A" ∧
    c5BasicInfo.biography.length = 30 ∧ hasEmailPattern c5BasicInfo.biography.data = false ∧
    hasPhonePattern c5BasicInfo.biography.data = false ∧
    (security_analysis c5BasicInfo).privacy_score = 70 ∧
    (security_analysis c5BasicInfo).privacy_score ≠ 65 := by decide

/-- C5 amended: for every public basic-info dictionary with no external
link and a 30-character biography containing no email-shaped and no
phone-shaped substring, the privacy score equals 70 — 100 minus the
30-point public deduction, with no other deduction applying. -/
theorem privacy_example_amended (bi : BasicInfo) (hpriv : bi.is_private = false)
    (hurl : bi.external_url = "N/A") (hlen : bi.biography.length = 30)
    (hmail : hasEmailPattern bi.biography.data = false)
    (hphone : hasPhonePattern bi.biography.data = false) :
    (security_analysis bi).privacy_score = 70 := by
  simp only [security_analysis, privacyRaw, hpriv, hurl, hlen, hmail, hphone]
  norm_num

/-- Witness for the amended C5 at the concrete example dictionary. -/
theorem privacy_example_amended_witness :
    (security_analysis c5BasicInfo).privacy_score = 70 :=
  privacy_example_amended c5BasicInfo rfl rfl (by decide) (by decide) (by decide)

/-- C6: for the example profile with 20000 followers, 5 posts and 50
followees both the high-followers/low-content label and the abnormal
follower/following ratio label are emitted; whenever no detection rule
fires the function returns exactly the one explicit marker, and its
result is never the empty list. -/
theorem suspicious_patterns_example_and_marker :
    (lblHighFollowersLowContent ∈ detect_suspicious_patterns botProfile ∧
     lblAbnormalRatio ∈ detect_suspicious_patterns botProfile) ∧
    (∀ p : Profile, suspicious_list p = [] → detect_suspicious_patterns p = [lblNoSuspicious]) ∧
    (∀ p : Profile, detect_suspicious_patterns p ≠ []) := by
  refine ⟨?_, ?_, ?_⟩
  · have h : detect_suspicious_patterns botProfile
        = [lblHighFollowersLowContent, lblAbnormalRatio] := by
      norm_num +decide [detect_suspicious_patterns, suspicious_list, calculate_advanced_metrics,
        botProfile, samplePublicProfile]
    rw [h]
    exact ⟨List.mem_cons_self _ _, List.mem_cons_of_mem _ (List.mem_cons_self _ _)⟩
  · intro p h
    simp [detect_suspicious_patterns, h]
  · intro p
    unfold detect_suspicious_patterns
    split_ifs with h
    · simp
    · exact h

/-- Witness for C6 at a clean concrete profile on which no rule fires. -/
theorem suspicious_patterns_example_and_marker_witness :
    detect_suspicious_patterns samplePublicProfile = [lblNoSuspicious] ∧
    detect_suspicious_patterns samplePrivateProfile ≠ [] :=
  ⟨suspicious_patterns_example_and_marker.2.1 samplePublicProfile (by
      norm_num +decide [suspicious_list, calculate_advanced_metrics, samplePublicProfile]),
   suspicious_patterns_example_and_marker.2.2 samplePrivateProfile⟩

/-- C7: the posting consistency score is 0 with fewer than two posts;
with at least two posts it equals max(0, 100 - (variance/mean)*10) over
the pairwise inter-post interval list when the mean interval is positive,
and the neutral 50 when the mean is non-positive. -/
theorem posting_consistency_cases (dates : List ℤ) :
    (dates.length < 2 → posting_consistency_score dates = 0) ∧
    (2 ≤ dates.length → 0 < specMean dates →
        posting_consistency_score dates
          = max 0 (100 - specVariance dates / specMean dates * 10)) ∧
    (2 ≤ dates.length → specMean dates ≤ 0 → posting_consistency_score dates = 50) := by
  unfold posting_consistency_score
  rw [meanInterval_eq, varianceInterval_eq]
  refine ⟨?_, ?_, ?_⟩
  · intro h
    rw [if_neg (by omega)]
  · intro h2 hm
    rw [if_pos (by omega), if_pos hm]
  · intro h2 hm
    rw [if_pos (by omega), if_neg (not_lt.mpr hm)]

/-- Witness for C7 at three concrete date lists: a single post, regular
posting with positive mean, and same-day posting with mean 0. -/
theorem posting_consistency_cases_witness :
    posting_consistency_score [5] = 0 ∧
    posting_consistency_score [10, 7, 4]
      = max 0 (100 - specVariance [10, 7, 4] / specMean [10, 7, 4] * 10) ∧
    posting_consistency_score [3, 3, 3] = 50 :=
  ⟨(posting_consistency_cases [5]).1 (by norm_num),
   (posting_consistency_cases [10, 7, 4]).2.1 (by norm_num)
      (by norm_num [specMean, pairwiseIntervals]),
   (posting_consistency_cases [3, 3, 3]).2.2 (by norm_num)
      (by norm_num [specMean, pairwiseIntervals])⟩

/-- C8: the top-level analysis returns the explicit no-report signal
exactly when the primary profile fetch fails, whatever any secondary
branch input does; inside the network branch a failing inner fetch is
caught and recorded in the error field of a normally returned dictionary,
and failing sample fetches degrade to empty samples with no error
escaping, so secondary failures never abort the analysis or sibling
branches. -/
theorem analysis_failure_isolation :
    (∀ (target : String) (depth : ℕ) (primaryFetch : Option Profile) (ninp : NetworkInputs)
        (f : FootprintData) (t : TimelineData) (b : BehavioralData),
        comprehensive_analysis target depth primaryFetch ninp f t b = none ↔
          primaryFetch = none) ∧
    (∀ (e : String) (fr1 fr2 : Exc (List String)) (sd : List (String × List String))
        (cf : List (String × ℕ)) (depth : ℕ),
        analyze_network ⟨.err e, fr1, fr2, sd, cf⟩ depth
          = { emptyNetworkData with error := some e }) ∧
    (∀ (p : Profile) (e1 e2 : String) (sd : List (String × List String))
        (cf : List (String × ℕ)) (depth : ℕ), p.is_private = false →
        (analyze_network ⟨.ok p, .err e1, .err e2, sd, cf⟩ depth).connections
            = some ⟨[], [], p.followers, p.followees⟩ ∧
        (analyze_network ⟨.ok p, .err e1, .err e2, sd, cf⟩ depth).error = none) := by
  refine ⟨?_, ?_, ?_⟩
  · intro target depth primaryFetch ninp f t b
    cases primaryFetch <;>
      simp [comprehensive_analysis, analyze_target_profile, profileDataGetIsPrivate]
  · intro e fr1 fr2 sd cf depth
    rfl
  · intro p e1 e2 sd cf depth hp
    constructor <;> simp [analyze_network, hp]

/-- Witness for C8 at concrete inputs: a failed primary fetch, a network
branch whose inner fetch raises, and a network branch whose sample
fetches raise. -/
theorem analysis_failure_isolation_witness :
    comprehensive_analysis "target" 2 none sampleNetworkInputs ⟨0⟩ ⟨0⟩ ⟨0⟩ = none ∧
    analyze_network ⟨.err "boom", .ok [], .ok [], [], []⟩ 2
      = { emptyNetworkData with error := some "boom" } ∧
    (analyze_network ⟨.ok samplePublicProfile, .err "e1", .err "e2", [], []⟩ 2).error = none :=
  ⟨(analysis_failure_isolation.1 "target" 2 none sampleNetworkInputs ⟨0⟩ ⟨0⟩ ⟨0⟩).mpr rfl,
   analysis_failure_isolation.2.1 "boom" (.ok []) (.ok []) [] [] 2,
   (analysis_failure_isolation.2.2 samplePublicProfile "e1" "e2" [] [] 2 rfl).2⟩

/-- C9: with zero followers all four advanced metrics — engagement
potential, influence score, authenticity score and profile completion —
are 0, whatever the other profile attributes are; the base authenticity
score of 50 is never applied. -/
theorem zero_followers_metrics_zero (p : Profile) (h : p.followers = 0) :
    (calculate_advanced_metrics p).engagement_potential = 0 ∧
    (calculate_advanced_metrics p).influence_score = 0 ∧
    (calculate_advanced_metrics p).authenticity_score = 0 ∧
    (calculate_advanced_metrics p).profile_completion = 0 := by
  simp [calculate_advanced_metrics, h]

/-- Witness for C9 at a zero-follower profile that is verified, has a
long biography, an external link, followees and posts. -/
theorem zero_followers_metrics_zero_witness :
    (calculate_advanced_metrics zeroFollowersRich).engagement_potential = 0 ∧
    (calculate_advanced_metrics zeroFollowersRich).influence_score = 0 ∧
    (calculate_advanced_metrics zeroFollowersRich).authenticity_score = 0 ∧
    (calculate_advanced_metrics zeroFollowersRich).profile_completion = 0 :=
  zero_followers_metrics_zero zeroFollowersRich rfl

/-- C10: the privacy score is always at least 10 — the worst case deducts
30+10+5+20+25 = 90 from the base 100 — and the final clamp to a minimum
of 0 never changes the value: the clamped score always equals the raw
score. -/
theorem privacy_score_at_least_ten (bi : BasicInfo) :
    10 ≤ (security_analysis bi).privacy_score ∧
    (security_analysis bi).privacy_score = privacyRaw bi := by
  have h := privacyRaw_bounds bi
  simp only [security_analysis]
  exact ⟨le_trans h.1 (le_max_right 0 _), max_eq_right (le_trans (by norm_num) h.1)⟩
